import Mathlib

set_option autoImplicit false

/-!
Shallow embedding of the streaming response protocol handler of
src/cortex_chat.py: the methods CortexChat._retrieve_response and
CortexChat._handle_error.

Modelling conventions, all taken from the source:

Python JSON values are modelled by the inductive type Json.  The external
library call json.loads is a collaborator and is passed in as a parameter
decode : String -> Option Json, where none models a raised
json.JSONDecodeError (which the source catches with a bare pass).

The Slack sink (the slack_say function and slack_app.client.chat_update) is
an external collaborator; it is modelled by a configuration SlackCfg whose
oracle fields updateOk and sayOk give the outcome of the n-th update or say
call of the turn (false models the call raising, which is how the Slack SDK
reports failure).  Every attempted sink call is recorded in an observable
trace of SlackCall values.

DEBUG = False is a module constant in the source, so every statement guarded
by if DEBUG (directly or through the short-circuit of DEBUG and ...) is a
no-op and is omitted here; bare print statements are likewise omitted.

A Python exception that escapes the per-frame handling (a TypeError,
AttributeError or KeyError on an unexpected JSON shape, or a sink call that
raises at an unprotected call site) propagates to the outer
except Exception handler of _retrieve_response; it is modelled by
Except.error st carrying the state at raise time, so that the trace of sink
calls made before the raise is preserved.

JSON numbers are modelled as integers; no statement of the source compares a
number against a string literal, and no theorem below involves non-integer
numerics.  The Python cross-type equalities True == 1 and 1 == 1.0 are not
modelled: every equality test in the source compares against a string
literal, where Python equality and Json.beq agree.
-/

inductive Json where
  | null
  | bool (b : Bool)
  | num (n : Int)
  | str (s : String)
  | arr (elems : List Json)
  | obj (fields : List (String × Json))

mutual

def Json.beq : Json → Json → Bool
  | .null, .null => true
  | .bool a, .bool b => a == b
  | .num a, .num b => a == b
  | .str a, .str b => a == b
  | .arr a, .arr b => Json.beqList a b
  | .obj a, .obj b => Json.beqObj a b
  | _, _ => false

def Json.beqList : List Json → List Json → Bool
  | [], [] => true
  | a :: as, b :: bs => Json.beq a b && Json.beqList as bs
  | _, _ => false

def Json.beqObj : List (String × Json) → List (String × Json) → Bool
  | [], [] => true
  | (k, v) :: as, (k2, v2) :: bs => k == k2 && Json.beq v v2 && Json.beqObj as bs
  | _, _ => false

end

instance : BEq Json := ⟨Json.beq⟩

/-- Python truthiness of a JSON value, as used by the source in tests such
    as if status_msg:. -/
def Json.truthy : Json → Bool
  | .null => false
  | .bool b => b
  | .num n => n != 0
  | .str s => s != ""
  | .arr xs => !xs.isEmpty
  | .obj fs => !fs.isEmpty

/-- Python str() rendering, used by the f-string Using {tool_name}.  The
    rendering of containers is abbreviated: the source only ever formats
    tool names and status messages, which are strings in every theorem
    below, and on strings str() is the identity. -/
def Json.disp : Json → String
  | .str s => s
  | .bool true => "True"
  | .bool false => "False"
  | .num n => toString n
  | .null => "None"
  | .arr _ => "[..]"
  | .obj _ => "[dict]"

/-- Python s.startswith(p). -/
def strStartsWith (s p : String) : Bool := p.toList.isPrefixOf s.toList

/-- Python s.strip(): whitespace removed from both ends. -/
def pyStrip (s : String) : String :=
  ⟨((s.toList.dropWhile Char.isWhitespace).reverse.dropWhile Char.isWhitespace).reverse⟩

/-- First binding of a key in a decoded JSON object (Python dict lookup;
    decoded dicts have distinct keys). -/
def lookupField : List (String × Json) → String → Option Json
  | [], _ => none
  | (k, v) :: fs, key => if k == key then some v else lookupField fs key

/-- Python dict.get(k, d).  Calling .get on a non-dict raises
    AttributeError, modelled by error. -/
def pyGet (j : Json) (k : String) (d : Json) : Except Unit Json :=
  match j with
  | .obj fs => .ok ((lookupField fs k).getD d)
  | _ => .error ()

/-- Python j[k] indexing with a string key: KeyError on a missing dict key,
    TypeError on a non-dict. -/
def pyIndex (j : Json) (k : String) : Except Unit Json :=
  match j with
  | .obj fs =>
    match lookupField fs k with
    | some v => .ok v
    | none => .error ()
  | _ => .error ()

/-- Whether needle occurs as a contiguous sublist of hay. -/
def subList {α : Type} [BEq α] (needle : List α) : List α → Bool
  | [] => needle.isEmpty
  | a :: t => needle.isPrefixOf (a :: t) || subList needle t

/-- Python k in j.  On a dict it is key containment, on a string it is
    substring containment, on a list it is element membership, and on any
    other value it raises TypeError. -/
def pyContains (j : Json) (k : String) : Except Unit Bool :=
  match j with
  | .obj fs => .ok (fs.any (fun p => p.1 == k))
  | .str s => .ok (subList k.toList s.toList)
  | .arr xs => .ok (xs.contains (Json.str k))
  | _ => .error ()

/-- Python iteration over the value of delta[content], as consumed by
    for content_item in delta[content].  A list yields its elements.  A
    non-empty string yields characters and a non-empty dict yields string
    keys: in both cases the first content_item.get call raises
    AttributeError before any state changes, which is equivalent to raising
    at once; empty ones yield nothing.  Any other value raises TypeError. -/
def iterItems (v : Json) : Except Unit (List Json) :=
  match v with
  | .arr xs => .ok xs
  | .str s => if s.isEmpty then .ok [] else .error ()
  | .obj fs => if fs.isEmpty then .ok [] else .error ()
  | _ => .error ()

/-- One attempted call to the Slack sink, with the structured data the
    source passes at that call site. -/
inductive SlackCall where
  | sayThinking
  | updatePrimary (stepCount : Nat) (latest : Json)
  | updateSecondary (stepCount : Nat) (latest : Json)
  | sayFallbackProgress (latest3 : List Json)
  | updateFinal (stepCount : Nat)
  | sayFallbackCompleted (allSteps : List Json)
  | sayCompletedNoApp (stepCount : Nat)
  | sayError (title msg : String)

/-- The mutable state of one _retrieve_response invocation: the fields
    response_lines, tools_used, current_thinking, planning_updates and
    current_event of the source loop, plus the model bookkeeping nUpdates,
    nSays (indices into the sink outcome oracles) and the trace of attempted
    sink calls. -/
structure StState where
  response_lines : List String
  tools_used : List Json
  current_thinking : String
  planning_updates : List Json
  current_event : Option String
  nUpdates : Nat
  nSays : Nat
  trace : List SlackCall

/-- Configuration of one turn: whether slack_say and slack_app were
    supplied, the _channel_id attribute of the app, the ts field of the
    result of the initial slack_say call, and the outcome oracles for sink
    calls (false = the call raises). -/
structure SlackCfg where
  hasSay : Bool
  hasApp : Bool
  channelId : Option String
  sayTs : Option String
  updateOk : Nat → Bool
  sayOk : Nat → Bool

/-- Attempt one chat_update call: the call is recorded in the trace and its
    outcome is read off the oracle. -/
def attemptUpdate (cfg : SlackCfg) (st : StState) (c : SlackCall) : StState × Bool :=
  ({st with nUpdates := st.nUpdates + 1, trace := st.trace ++ [c]}, cfg.updateOk st.nUpdates)

/-- Attempt one slack_say call. -/
def attemptSay (cfg : SlackCfg) (st : StState) (c : SlackCall) : StState × Bool :=
  ({st with nSays := st.nSays + 1, trace := st.trace ++ [c]}, cfg.sayOk st.nSays)

/-- Python truthiness of an optional handle (None or an empty string is
    falsy). -/
def optTruthy : Option String → Bool
  | none => false
  | some s => s != ""

/-- Python xs[-n:]. -/
def takeLast {α : Type} (n : Nat) (xs : List α) : List α := xs.drop (xs.length - n)

/-- Python current_event == s where current_event may be None. -/
def statusEq (o : Option String) (s : String) : Bool :=
  match o with
  | some t => t == s
  | none => false

/-- One content_item of a message.delta event (source lines 176-233).  The
    tool_result branch consists solely of DEBUG-guarded statements and is a
    no-op with DEBUG = False. -/
def handleItem (st : StState) (item : Json) : Except StState StState :=
  match pyGet item "type" .null with
  | .error _ => .error st
  | .ok t =>
    if t == Json.str "text" then
      match pyGet item "text" (.str "") with
      | .error _ => .error st
      | .ok td =>
        if td.truthy then
          match td with
          | .str s => .ok {st with current_thinking := st.current_thinking ++ s}
          | _ => .error st
        else .ok st
    else if t == Json.str "tool_use" then
      match pyGet item "tool_use" (.obj []) with
      | .error _ => .error st
      | .ok tool_data =>
        match pyGet tool_data "name" (.str "unknown") with
        | .error _ => .error st
        | .ok tool_name =>
          if st.tools_used.contains tool_name then .ok st
          else .ok {st with
            tools_used := st.tools_used ++ [tool_name],
            planning_updates := st.planning_updates ++ [.str ("Using " ++ tool_name.disp)]}
    else if t == Json.str "tool_result" then
      .ok st
    else .ok st

/-- Fold the content items of one message.delta in order, stopping at the
    first item whose handling raises. -/
def foldContentItems (st : StState) : List Json → Except StState StState
  | [] => .ok st
  | item :: rest =>
    match handleItem st item with
    | .error st2 => .error st2
    | .ok st2 => foldContentItems st2 rest

/-- The secondary status branch (source lines 236-314): an object with no
    object field carrying a status field.  The tool_metadata block that
    follows it is DEBUG-guarded and omitted.  The channel read inside the
    try block is getattr(slack_app, _channel_id), which equals the
    planning_channel ch captured before the loop because _channel_id is
    never mutated during a turn. -/
def secondaryStatus (cfg : SlackCfg) (ts ch : Option String) (st : StState)
    (fs : List (String × Json)) : Except StState StState :=
  if (lookupField fs "status").isSome then
    let status := (lookupField fs "status").getD (.str "")
    let status_msg := (lookupField fs "status_message").getD (.str "")
    if status.truthy && !(status == Json.str "REASONING_AGENT_STOP") then
      if status_msg.truthy then
        let st1 := {st with planning_updates := st.planning_updates ++ [status_msg]}
        if cfg.hasApp && optTruthy ts && st1.planning_updates.length % 2 == 0 then
          if optTruthy ch then
            let p := attemptUpdate cfg st1
                (.updateSecondary st1.planning_updates.length status_msg)
            if p.2 then .ok p.1
            else if cfg.hasSay then
              let q := attemptSay cfg p.1
                  (.sayFallbackProgress (takeLast 3 p.1.planning_updates))
              if q.2 then .ok q.1 else .error q.1
            else .ok p.1
          else .ok st1
        else .ok st1
      else .ok st
    else .ok st
  else .ok st

/-- Handling of one successfully decoded data frame (source lines 120-314),
    given the event context and the slack handles captured before the
    loop. -/
def handleJson (cfg : SlackCfg) (ts ch : Option String) (st : StState) (j : Json) :
    Except StState StState :=
  if statusEq st.current_event "response.status" then
    match pyContains j "message" with
    | .error _ => .error st
    | .ok false => .ok st
    | .ok true =>
      match pyIndex j "message" with
      | .error _ => .error st
      | .ok msg =>
        let st1 := {st with planning_updates := st.planning_updates ++ [msg]}
        if cfg.hasApp && optTruthy ts && optTruthy ch then
          let p := attemptUpdate cfg st1
              (.updatePrimary st1.planning_updates.length msg)
          .ok p.1
        else .ok st1
  else if statusEq st.current_event "response" then
    .ok st
  else
    match pyGet j "object" .null with
    | .error _ => .error st
    | .ok o =>
      if o == Json.str "message.delta" then
        match pyGet j "delta" (.obj []) with
        | .error _ => .error st
        | .ok delta =>
          match pyContains delta "content" with
          | .error _ => .error st
          | .ok false => .ok st
          | .ok true =>
            match pyIndex delta "content" with
            | .error _ => .error st
            | .ok cv =>
              match iterItems cv with
              | .error _ => .error st
              | .ok items => foldContentItems st items
      else if o == Json.null then
        match j with
        | .obj fs => secondaryStatus cfg ts ch st fs
        | _ => .error st
      else .ok st

/-- One iteration of the line loop (source lines 100-317).  The returned
    Bool is true when the loop breaks at the [DONE] sentinel.  An empty line
    is skipped entirely; a non-empty line is first appended to
    response_lines. -/
def processLine (cfg : SlackCfg) (decode : String → Option Json) (ts ch : Option String)
    (st : StState) (line : String) : Except StState (StState × Bool) :=
  if line == "" then .ok (st, false)
  else if strStartsWith line "event: " then
    .ok ({st with response_lines := st.response_lines ++ [line], current_event := some (pyStrip (line.drop 7))}, false)
  else if strStartsWith line "data: " then
    if pyStrip (line.drop 6) == "[DONE]" then
      .ok ({st with response_lines := st.response_lines ++ [line]}, true)
    else if !(strStartsWith (pyStrip (line.drop 6)) "[") then
      match decode (pyStrip (line.drop 6)) with
      | none => .ok ({st with response_lines := st.response_lines ++ [line]}, false)
      | some j =>
        match handleJson cfg ts ch {st with response_lines := st.response_lines ++ [line]} j with
        | .error st2 => .error st2
        | .ok st2 => .ok (st2, false)
    else .ok ({st with response_lines := st.response_lines ++ [line]}, false)
  else .ok ({st with response_lines := st.response_lines ++ [line]}, false)

/-- The line loop.  An .ok result means the loop terminated normally (either
    by break at [DONE] or by exhausting the stream); an .error result means
    an uncategorized exception escaped to the outer handler. -/
def runLines (cfg : SlackCfg) (decode : String → Option Json) (ts ch : Option String) :
    List String → StState → Except StState StState
  | [], st => .ok st
  | l :: ls, st =>
    match processLine cfg decode ts ch st l with
    | .error st2 => .error st2
    | .ok (st2, true) => .ok st2
    | .ok (st2, false) => runLines cfg decode ts ch ls st2

/-- has_sse_data (source line 320). -/
def has_sse_data (lines : List String) : Bool :=
  lines.any (fun l => strStartsWith l "data: ")

/-- The parser dispatch (source lines 322-325).  CortexResponseParser is an
    external module; its two parse entry points are passed in as opaque
    functions. -/
def dispatchParse (parse_sse : List String → Json) (parse_json : String → Json)
    (lines : List String) : Json :=
  if has_sse_data lines then parse_sse lines
  else parse_json (String.intercalate "\n" lines)

/-- The completion update after the loop (source lines 337-427).  The text
    of the final chat_update is built from the extracted summary inside a
    nested bare try/except that absorbs any error, so the computation of the
    text cannot raise and the model records only the structured call.  When
    planning_channel is falsy the source raises Exception inside the same
    try block, so both the failed update and the missing channel reach the
    same fallback. -/
def finalize (cfg : SlackCfg) (ts ch : Option String) (st : StState) :
    Except StState StState :=
  if st.planning_updates.isEmpty then .ok st
  else if cfg.hasApp && optTruthy ts then
    if optTruthy ch then
      let p := attemptUpdate cfg st (.updateFinal st.planning_updates.length)
      if p.2 then .ok p.1
      else if cfg.hasSay then
        let q := attemptSay cfg p.1 (.sayFallbackCompleted p.1.planning_updates)
        if q.2 then .ok q.1 else .error q.1
      else .ok p.1
    else
      if cfg.hasSay then
        let q := attemptSay cfg st (.sayFallbackCompleted st.planning_updates)
        if q.2 then .ok q.1 else .error q.1
      else .ok st
  else if cfg.hasSay then
    let q := attemptSay cfg st (.sayCompletedNoApp st.planning_updates.length)
    if q.2 then .ok q.1 else .error q.1
  else .ok st

/-- The error summary dict built by _handle_error (source line 477). -/
def errSummary (msg : String) : Json :=
  .obj [("text", .str ("Error: " ++ msg)),
        ("sql_queries", .arr []), ("citations", .arr [])]

/-- The outcome of one whole invocation: the returned summary (none when an
    exception propagated to the caller) and the trace of attempted sink
    calls. -/
structure RunOut where
  result : Option Json
  trace : List SlackCall

/-- _handle_error (source lines 465-477).  The slack_say call in it is not
    wrapped in any try block, so when the sink raises, the exception
    propagates to the caller of _retrieve_response. -/
def handleError (cfg : SlackCfg) (st : StState) (msg title : String) : RunOut :=
  if cfg.hasSay then
    let q := attemptSay cfg st (.sayError title msg)
    if q.2 then ⟨some (errSummary msg), q.1.trace⟩ else ⟨none, q.1.trace⟩
  else ⟨some (errSummary msg), st.trace⟩

/-- Outcome of the transport call requests.post + raise_for_status: a
    timeout, a RequestException (including non-2xx HTTPError, carrying the
    rendered exception text), or a 2xx response whose body iterates the
    given lines. -/
inductive Transport where
  | timeout
  | requestError (msg : String)
  | ok (lines : List String)

def initState : StState := ⟨[], [], "", [], none, 0, 0, []⟩

/-- The f-string Unexpected error: {e} renders the escaped exception, whose
    text the model does not carry; only the Error: prefix of the resulting
    summary text is claim-relevant. -/
def errUnexpected : String := "Unexpected error: exception during stream handling"

/-- Parser dispatch, summary extraction and the completion update, after
    the loop ended normally in state stL (source lines 319-444).
    extract_summary is the external parser method; a raise escaping the
    completion update reaches the same outer handler. -/
def finishTurn (cfg : SlackCfg) (parse_sse : List String → Json)
    (parse_json : String → Json) (extract_summary : Json → Json)
    (ts ch : Option String) (stL : StState) : RunOut :=
  match finalize cfg ts ch stL with
  | .error stE => handleError cfg stE errUnexpected "Unexpected error"
  | .ok stF =>
    ⟨some (extract_summary (dispatchParse parse_sse parse_json stL.response_lines)),
     stF.trace⟩

/-- Everything after a successful transport call and initial say: the line
    loop, then finishTurn; an uncategorized exception escaping the loop is
    converted by _handle_error. -/
def runStream (cfg : SlackCfg) (decode : String → Option Json)
    (parse_sse : List String → Json) (parse_json : String → Json)
    (extract_summary : Json → Json) (ts ch : Option String) (st : StState)
    (lines : List String) : RunOut :=
  match runLines cfg decode ts ch lines st with
  | .error stE => handleError cfg stE errUnexpected "Unexpected error"
  | .ok stL => finishTurn cfg parse_sse parse_json extract_summary ts ch stL

/-- planning_channel (source line 69): the _channel_id attribute of the app
    when an app was supplied, else None. -/
def chInit (cfg : SlackCfg) : Option String :=
  if cfg.hasApp then cfg.channelId else none

/-- planning_message_ts after a successful initial say (source lines 85-86):
    the ts field of the say result when truthy, else None. -/
def tsInit (cfg : SlackCfg) : Option String :=
  if optTruthy cfg.sayTs then cfg.sayTs else none

/-- The planning_message_ts in effect during the loop: none when no say
    sink was configured (the initial say never ran). -/
def tsUsed (cfg : SlackCfg) : Option String :=
  if cfg.hasSay then tsInit cfg else none

/-- The state after the initial Thinking say (or untouched when no say sink
    was configured). -/
def stAfterSay (cfg : SlackCfg) : StState :=
  if cfg.hasSay then (attemptSay cfg initState .sayThinking).1 else initState

/-- _retrieve_response (source lines 21-463).  The initial Thinking say
    happens unconditionally right after raise_for_status, before any line of
    the stream is read; planning_message_ts is taken from the ts field of
    its result; planning_channel is the _channel_id attribute of the app
    when an app was supplied. -/
def retrieveResponse (cfg : SlackCfg) (decode : String → Option Json)
    (parse_sse : List String → Json) (parse_json : String → Json)
    (extract_summary : Json → Json) (t : Transport) : RunOut :=
  match t with
  | .timeout =>
    handleError cfg initState "Request took longer than 120 seconds" "Request timeout"
  | .requestError m =>
    handleError cfg initState ("Request error: " ++ m) "Request failed"
  | .ok lines =>
    if cfg.hasSay then
      let q := attemptSay cfg initState .sayThinking
      if q.2 then
        runStream cfg decode parse_sse parse_json extract_summary
          (tsInit cfg) (chInit cfg) q.1 lines
      else handleError cfg q.1 errUnexpected "Unexpected error"
    else
      runStream cfg decode parse_sse parse_json extract_summary
        none (chInit cfg) initState lines

/-! Concrete fixtures shared by the closed statements below. -/

/-- A finite-table JSON decoder standing in for json.loads in closed runs. -/
def decodeTable (tbl : List (String × Json)) : String → Option Json :=
  fun s => lookupField tbl s

/-- A secondary-channel status payload: no object field, a truthy status not
    equal to REASONING_AGENT_STOP, and a status_message. -/
def statusObj (m : String) : Json :=
  .obj [("status", .str "RUNNING"), ("status_message", .str m)]

/-- A turn with both sinks configured, a channel, a ts on the initial say,
    and every sink call succeeding. -/
def cfgAllOk : SlackCfg := ⟨true, true, some "chan", some "111.22", fun _ => true, fun _ => true⟩

/-- Opaque stand-ins for the external CortexResponseParser methods. -/
def pId : List String → Json := fun _ => Json.null

def pJ : String → Json := fun _ => Json.null

def exS : Json → Json := fun j => j

/-- A message.delta frame invoking the tool cortex_search (spec section 8
    scenario). -/
def toolUseDelta : Json :=
  Json.obj [("object", Json.str "message.delta"),
    ("delta", Json.obj [("content", Json.arr [Json.obj [("type", Json.str "tool_use"),
      ("tool_use", Json.obj [("name", Json.str "cortex_search")])]])])]

/- Sanity checks against the two stream scenarios of spec section 8. -/

example :
    (retrieveResponse cfgAllOk
      (decodeTable [("m1", Json.obj [("message", Json.str "Searching")])])
      pId pJ exS
      (.ok ["event: response.status", "data: m1", "data: [DONE]"])).trace
    = [SlackCall.sayThinking, SlackCall.updatePrimary 1 (Json.str "Searching"),
       SlackCall.updateFinal 1] := rfl

example :
    (runLines cfgAllOk (decodeTable [("t1", toolUseDelta)]) none none
      ["data: t1", "data: [DONE]"] initState)
    = Except.ok ⟨["data: t1", "data: [DONE]"], [Json.str "cortex_search"], "",
        [Json.str "Using cortex_search"], none, 0, 0, []⟩ := rfl

/-! Claim C6. -/

/-- Claim C6: for every frame whose payload fails JSON decoding (decode
    returns none, modelling json.JSONDecodeError), processing never raises:
    the result is .ok, the loop continues (the break flag is false), and the
    state is unchanged except for collecting the raw line into
    response_lines — no accumulator or notifier field changes.  This is the
    bare except json.JSONDecodeError: pass at source lines 316-317. -/
theorem C6_decode_failure_noop (cfg : SlackCfg) (decode : String → Option Json)
    (ts ch : Option String) (st : StState) (line : String)
    (h0 : (line == "") = false)
    (h1 : strStartsWith line "event: " = false)
    (h2 : strStartsWith line "data: " = true)
    (h3 : (pyStrip (line.drop 6) == "[DONE]") = false)
    (h4 : strStartsWith (pyStrip (line.drop 6)) "[" = false)
    (h5 : decode (pyStrip (line.drop 6)) = none) :
    processLine cfg decode ts ch st line =
      Except.ok ({st with response_lines := st.response_lines ++ [line]}, false) := by
  simp [processLine, h0, h1, h2, h3, h4, h5]

/-- Witness for C6 at the malformed payload notjson. -/
theorem C6_witness :
    processLine cfgAllOk (fun _ => none) none none initState "data: notjson" =
      Except.ok (⟨["data: notjson"], [], "", [], none, 0, 0, []⟩, false) :=
  C6_decode_failure_noop cfgAllOk (fun _ => none) none none initState "data: notjson"
    rfl rfl rfl rfl rfl rfl

/-! Claim C10. -/

/-- Claim C10: every data payload that begins with the character [ and is
    not exactly [DONE] is skipped entirely: the decoder is never consulted
    (the result is the same for every decode function, including one that
    would decode it as valid JSON), no accumulator or notifier state
    changes, and the loop continues.  This is the
    elif not data_content.startswith case at source lines 118-119 falling
    through to no else branch. -/
theorem C10_bracket_payload_skipped (cfg : SlackCfg) (decode : String → Option Json)
    (ts ch : Option String) (st : StState) (line : String)
    (h0 : (line == "") = false)
    (h1 : strStartsWith line "event: " = false)
    (h2 : strStartsWith line "data: " = true)
    (h3 : (pyStrip (line.drop 6) == "[DONE]") = false)
    (h4 : strStartsWith (pyStrip (line.drop 6)) "[" = true) :
    processLine cfg decode ts ch st line =
      Except.ok ({st with response_lines := st.response_lines ++ [line]}, false) := by
  simp [processLine, h0, h1, h2, h3, h4]

/-- Witness for C10 at the valid JSON array payload, with a decoder that
    would succeed on it: the line is still skipped. -/
theorem C10_witness :
    processLine cfgAllOk (fun _ => some (Json.arr [Json.num 1, Json.num 2])) none none
      initState "data: [1, 2]" =
      Except.ok (⟨["data: [1, 2]"], [], "", [], none, 0, 0, []⟩, false) :=
  C10_bracket_payload_skipped cfgAllOk (fun _ => some (Json.arr [Json.num 1, Json.num 2]))
    none none initState "data: [1, 2]" rfl rfl rfl rfl rfl

/-! Claim C2. -/

/-- A message.delta frame whose single content item is a tool_result
    carrying every verification-related key, both at top level and in the
    nested json sub-object. -/
def verifiedToolResultDelta : Json :=
  Json.obj [("object", Json.str "message.delta"),
    ("delta", Json.obj [("content", Json.arr [Json.obj [("type", Json.str "tool_result"),
      ("tool_result", Json.obj
        [("verification", Json.str "passed"), ("validated", Json.bool true),
         ("query_verified", Json.bool true), ("verified_query_used", Json.bool true),
         ("query_validation", Json.str "ok"),
         ("json", Json.obj [("verified_query_used", Json.bool true)])])]])])]

/-- Counterexample to claim C2: folding a ToolResult event whose payload
    carries every verification-related key (including verified_query_used =
    true at top level and inside the nested json sub-object) leaves the
    accumulator state completely unchanged — nothing is merged and no flag
    is set.  In the source, every statement of the tool_result branch
    (lines 204-233) is a DEBUG-guarded print, and DEBUG = False; the loop
    keeps no verification state at all.  The verification_info and
    verified_query_used stored at lines 330-334 come from the external
    parser summary, not from this fold. -/
theorem C2_counterexample :
    handleJson cfgAllOk (some "111.22") (some "chan") initState verifiedToolResultDelta
      = Except.ok initState := rfl

/-- Claim C2 as amended: for every ToolResult content item, with any payload
    value whatsoever, the fold is the identity on the accumulator state: the
    verification-related keys are inspected only by DEBUG-guarded logging
    and are never merged; the summary verification fields are produced by
    the external parser after the stream ends. -/
theorem C2_amended_toolresult_noop (st : StState) (v : Json) :
    handleItem st (Json.obj [("type", Json.str "tool_result"), ("tool_result", v)])
      = Except.ok st := rfl

/-! Claim C9. -/

/-- Claim C9: summary extraction dispatches on stream shape — the streaming
    (SSE) parse path is taken exactly when at least one collected line
    starts with the prefix data-colon-space, and otherwise the joined lines
    are parsed as one non-streamed JSON document (source lines 320-325). -/
theorem C9_dispatch (parse_sse : List String → Json) (parse_json : String → Json)
    (lines : List String) :
    (has_sse_data lines = true ↔ ∃ l ∈ lines, strStartsWith l "data: " = true) ∧
    dispatchParse parse_sse parse_json lines =
      (if has_sse_data lines then parse_sse lines
       else parse_json (String.intercalate "\n" lines)) := by
  constructor
  · simp [has_sse_data, List.any_eq_true]
  · rfl

/-! Claim C7. -/

/-- A message.delta content item of type tool_use invoking the named tool. -/
def toolUseItem (name : String) : Json :=
  Json.obj [("type", Json.str "tool_use"), ("tool_use", Json.obj [("name", Json.str name)])]

theorem json_beq_def (a b : Json) : (a == b) = Json.beq a b := rfl

theorem handleItem_toolUse (st : StState) (name : String) :
    handleItem st (toolUseItem name) =
      (if st.tools_used.contains (Json.str name) then Except.ok st
       else Except.ok {st with tools_used := st.tools_used ++ [Json.str name], planning_updates := st.planning_updates ++ [Json.str ("Using " ++ name)]}) := by
  simp [handleItem, toolUseItem, pyGet, lookupField, json_beq_def, Json.beq, Json.disp]

theorem foldContentItems_toolUse_mem (st : StState) (name : String) (k : Nat)
    (h : st.tools_used.contains (Json.str name) = true) :
    foldContentItems st (List.replicate k (toolUseItem name)) = Except.ok st := by
  induction k with
  | zero => rfl
  | succ n ih =>
    rw [List.replicate_succ]
    simp only [foldContentItems, handleItem_toolUse, h, if_true]
    exact ih

/-- Claim C7: folding tool-use events is idempotent on tool names — for a
    sequence of k >= 2 tool_use items all invoking the same tool name,
    starting from an accumulator with no tools recorded, tools_used ends
    containing the name exactly once and the synthesized planning step
    Using name is appended exactly once (source lines 186-193: the name is
    appended only when not already in tools_used). -/
theorem C7_tool_use_idempotent (st : StState) (name : String) (k : Nat)
    (hk : 2 ≤ k) (h0 : st.tools_used = []) :
    foldContentItems st (List.replicate k (toolUseItem name)) =
      Except.ok {st with tools_used := [Json.str name], planning_updates := st.planning_updates ++ [Json.str ("Using " ++ name)]} := by
  obtain ⟨n, rfl⟩ : ∃ n, k = n + 1 := ⟨k - 1, by omega⟩
  rw [List.replicate_succ]
  simp only [foldContentItems, handleItem_toolUse, h0, List.contains_nil, Bool.false_eq_true,
    if_false, List.nil_append]
  exact foldContentItems_toolUse_mem _ name n (by simp [json_beq_def, Json.beq])

/-- Witness for C7: the same tool name arriving twice yields one entry and
    one synthesized step. -/
theorem C7_witness :
    foldContentItems initState (List.replicate 2 (toolUseItem "cortex_search")) =
      Except.ok ⟨[], [Json.str "cortex_search"], "", [Json.str "Using cortex_search"],
        none, 0, 0, []⟩ :=
  C7_tool_use_idempotent initState "cortex_search" 2 (by omega) rfl

/-! Claim C5. -/

/-- A line at which the loop breaks: non-empty, data-prefixed, and whose
    stripped payload is exactly [DONE]. -/
def isDoneLine (l : String) : Bool :=
  !(l == "") && strStartsWith l "data: " && (pyStrip (l.drop 6) == "[DONE]")

theorem not_event_of_data (l : String) (h : strStartsWith l "data: " = true) :
    strStartsWith l "event: " = false := by
  have hd : ("data: ").toList = ['d', 'a', 't', 'a', ':', ' '] := rfl
  have he : ("event: ").toList = ['e', 'v', 'e', 'n', 't', ':', ' '] := rfl
  unfold strStartsWith at h ⊢
  rw [hd] at h
  rw [he]
  cases hl : l.toList with
  | nil => rw [hl] at h; simp [List.isPrefixOf] at h
  | cons c cs =>
    rw [hl] at h
    simp only [List.isPrefixOf, Bool.and_eq_true, beq_iff_eq] at h
    obtain ⟨rfl, -⟩ := h
    simp [List.isPrefixOf]

theorem processLine_done (cfg : SlackCfg) (decode : String → Option Json)
    (ts ch : Option String) (st : StState) (l : String) (h : isDoneLine l = true) :
    processLine cfg decode ts ch st l =
      Except.ok ({st with response_lines := st.response_lines ++ [l]}, true) := by
  simp only [isDoneLine, Bool.and_eq_true, Bool.not_eq_true'] at h
  obtain ⟨⟨h0, h1⟩, h2⟩ := h
  simp [processLine, h0, h1, h2, not_event_of_data l h1]

theorem processLine_break (cfg : SlackCfg) (decode : String → Option Json)
    (ts ch : Option String) (st : StState) (l : String) (st2 : StState)
    (h : processLine cfg decode ts ch st l = Except.ok (st2, true)) :
    isDoneLine l = true := by
  unfold processLine at h
  split at h
  · simp at h
  · split at h
    · simp at h
    · split at h
      · split at h
        · rename_i h0 h1 h2 h3
          simp only [isDoneLine, Bool.and_eq_true, Bool.not_eq_true']
          refine ⟨⟨?_, h2⟩, h3⟩
          simpa using h0
        · split at h
          · split at h
            · simp at h
            · split at h
              · simp at h
              · simp at h
          · simp at h
      · simp at h

/-- A message.delta frame whose delta.content is the number 5: valid JSON,
    but iterating it raises TypeError in Python, which escapes to the outer
    except Exception handler and aborts the read loop. -/
def badContentDelta : Json :=
  Json.obj [("object", Json.str "message.delta"),
    ("delta", Json.obj [("content", Json.num 5)])]

/-- Counterexample to claim C5 as stated: an input line sequence containing
    a data [DONE] line on which the loop does NOT stop at that line — an
    earlier frame (valid JSON whose delta.content is a number) raises an
    uncategorized exception, so the loop aborts at line one and the [DONE]
    line is never consumed (response_lines collects only the first line). -/
theorem C5_counterexample :
    runLines cfgAllOk (decodeTable [("bad", badContentDelta)]) none none
      ["data: bad", "data: [DONE]"] initState
      = Except.error ⟨["data: bad"], [], "", [], none, 0, 0, []⟩ := rfl

/-- Claim C5 as amended: for every input line sequence of the form
    pre ++ [doneLine] ++ suffix where doneLine is a data [DONE] line, no
    line of pre is itself a [DONE] line, and processing pre completes
    without an uncategorized exception, the loop stops exactly at the
    [DONE] line: it consumes it (collecting it into response_lines) and
    consumes nothing after it, whatever the trailing content (source lines
    114-117). -/
theorem C5_amended_stops_at_first_done (cfg : SlackCfg) (decode : String → Option Json)
    (ts ch : Option String) (pre suffix : List String) (doneLine : String)
    (st stP : StState)
    (hpre : runLines cfg decode ts ch pre st = Except.ok stP)
    (hnd : pre.all (fun l => !(isDoneLine l)) = true)
    (hd : isDoneLine doneLine = true) :
    runLines cfg decode ts ch (pre ++ doneLine :: suffix) st =
      Except.ok {stP with response_lines := stP.response_lines ++ [doneLine]} := by
  induction pre generalizing st with
  | nil =>
    simp only [runLines] at hpre
    cases hpre
    simp [runLines, processLine_done cfg decode ts ch stP doneLine hd]
  | cons l ls ih =>
    simp only [List.all_cons, Bool.and_eq_true, Bool.not_eq_true'] at hnd
    rw [List.cons_append]
    simp only [runLines] at hpre ⊢
    cases hP : processLine cfg decode ts ch st l with
    | error st2 => rw [hP] at hpre; exact absurd hpre (by simp)
    | ok p =>
      obtain ⟨st2, b⟩ := p
      cases b with
      | true =>
        have hl := processLine_break cfg decode ts ch st l st2 hP
        rw [hnd.1] at hl
        exact absurd hl (by simp)
      | false =>
        rw [hP] at hpre
        exact ih st2 hpre hnd.2

/-- Witness for C5 amended: a one-line prefix whose payload fails decoding,
    then [DONE], then trailing garbage that is never consumed. -/
theorem C5_witness :
    runLines cfgAllOk (fun _ => none) none none
      (["data: nope"] ++ "data: [DONE]" :: ["data: trailing", "garbage"]) initState =
      Except.ok ⟨["data: nope", "data: [DONE]"], [], "", [], none, 0, 0, []⟩ :=
  C5_amended_stops_at_first_done cfgAllOk (fun _ => none) none none
    ["data: nope"] ["data: trailing", "garbage"] "data: [DONE]" initState
    ⟨["data: nope"], [], "", [], none, 0, 0, []⟩ rfl rfl rfl

/-! Claim C8. -/

/-- True for the two brand-new-message fallback posts (the latest-3 progress
    fallback and the all-steps completion fallback). -/
def SlackCall.isFallbackPost : SlackCall → Bool
  | .sayFallbackProgress _ => true
  | .sayFallbackCompleted _ => true
  | _ => false

/-- A turn in which the first chat_update call raises and every other sink
    call succeeds. -/
def cfgPrimaryFail : SlackCfg :=
  ⟨true, true, some "chan", some "111.22", fun i => i != 0, fun _ => true⟩

/-- Counterexample to claim C8: a turn in which an update to the existing
    notification record fails — the primary-channel (response.status)
    refresh, updateOk 0 = false — and the notifier posts no fallback message
    at all: the except handler at source lines 157-161 only logs.  The
    trace shows the attempted initial say, the failed primary update and the
    final update, and zero fallback posts. -/
theorem C8_counterexample :
    cfgPrimaryFail.updateOk 0 = false ∧
    (retrieveResponse cfgPrimaryFail
        (decodeTable [("m1", Json.obj [("message", Json.str "step1")])])
        pId pJ exS (.ok ["event: response.status", "data: m1"])).trace
      = [SlackCall.sayThinking, SlackCall.updatePrimary 1 (Json.str "step1"),
         SlackCall.updateFinal 1] ∧
    ((retrieveResponse cfgPrimaryFail
        (decodeTable [("m1", Json.obj [("message", Json.str "step1")])])
        pId pJ exS (.ok ["event: response.status", "data: m1"])).trace.countP
      SlackCall.isFallbackPost) = 0 :=
  ⟨rfl, rfl, rfl⟩

/-- Claim C8 as amended: on the secondary (status-field) channel only, a
    failed refresh of the existing record falls back exactly once to
    posting a brand-new message carrying the latest 3 planning steps, and
    (when the sink post itself succeeds) no exception propagates — while a
    failed primary-channel refresh produces no fallback at all (source
    lines 287-305 versus 157-161). -/
theorem C8_amended_secondary_fallback (cfg : SlackCfg) (ts ch : Option String)
    (st : StState) (m : String)
    (hev : st.current_event = none)
    (hm : (m != "") = true)
    (hApp : cfg.hasApp = true) (hts : optTruthy ts = true) (hch : optTruthy ch = true)
    (hpar : ((st.planning_updates.length + 1) % 2 == 0) = true)
    (hU : cfg.updateOk st.nUpdates = false)
    (hSay : cfg.hasSay = true) (hS : cfg.sayOk st.nSays = true) :
    handleJson cfg ts ch st (statusObj m) =
      Except.ok {st with planning_updates := st.planning_updates ++ [Json.str m], nUpdates := st.nUpdates + 1, nSays := st.nSays + 1, trace := st.trace ++ [SlackCall.updateSecondary (st.planning_updates.length + 1) (Json.str m), SlackCall.sayFallbackProgress (takeLast 3 (st.planning_updates ++ [Json.str m]))]} := by
  simp [handleJson, statusEq, hev, statusObj, pyGet, lookupField, json_beq_def, Json.beq,
    secondaryStatus, Json.truthy, hm, hApp, hts, hch, hpar, hU, hSay, hS,
    attemptUpdate, attemptSay]

/-- Witness for C8 amended: one prior step, so the failing refresh is the
    2nd update; the fallback carries both steps (the latest 3 of a 2-step
    log). -/
theorem C8_witness :
    handleJson ⟨true, true, some "chan", some "111.22", fun _ => false, fun _ => true⟩
      (some "111.22") (some "chan")
      ⟨[], [], "", [Json.str "s1"], none, 0, 0, []⟩ (statusObj "s2") =
      Except.ok ⟨[], [], "", [Json.str "s1", Json.str "s2"], none, 1, 1,
        [SlackCall.updateSecondary 2 (Json.str "s2"),
         SlackCall.sayFallbackProgress [Json.str "s1", Json.str "s2"]]⟩ :=
  C8_amended_secondary_fallback
    ⟨true, true, some "chan", some "111.22", fun _ => false, fun _ => true⟩
    (some "111.22") (some "chan") ⟨[], [], "", [Json.str "s1"], none, 0, 0, []⟩ "s2"
    rfl rfl rfl rfl rfl rfl rfl rfl rfl

/-! Trace invariants: the line loop and the finalization only ever append
    sink calls to the trace, and none of those calls is the error
    notification of _handle_error. -/

def SlackCall.isSayError : SlackCall → Bool
  | .sayError _ _ => true
  | _ => false

/-- The state carried by either outcome of a handler step. -/
def stOf : Except StState StState → StState
  | .ok s => s
  | .error s => s

/-- The state carried by either outcome of one line step. -/
def stOfP : Except StState (StState × Bool) → StState
  | .ok p => p.1
  | .error s => s

/-- The trace only grows, and grows by non-error-notification calls. -/
def TraceInv (st st2 : StState) : Prop :=
  st.trace <+: st2.trace ∧
  st2.trace.countP SlackCall.isSayError = st.trace.countP SlackCall.isSayError

theorem traceInv_refl (st : StState) : TraceInv st st := ⟨List.prefix_refl _, rfl⟩

theorem traceInv_trans {a b c : StState} (h1 : TraceInv a b) (h2 : TraceInv b c) :
    TraceInv a c := ⟨h1.1.trans h2.1, by rw [h2.2, h1.2]⟩

theorem handleItem_traceInv (st : StState) (item : Json) :
    TraceInv st (stOf (handleItem st item)) := by
  simp only [handleItem]
  repeat' split
  all_goals exact traceInv_refl st

theorem foldContentItems_traceInv (items : List Json) (st : StState) :
    TraceInv st (stOf (foldContentItems st items)) := by
  induction items generalizing st with
  | nil => exact traceInv_refl st
  | cons item rest ih =>
    simp only [foldContentItems]
    cases hI : handleItem st item with
    | error st2 =>
      have h := handleItem_traceInv st item
      rw [hI] at h
      exact h
    | ok st2 =>
      have h := handleItem_traceInv st item
      rw [hI] at h
      exact traceInv_trans h (ih st2)

theorem secondaryStatus_traceInv (cfg : SlackCfg) (ts ch : Option String) (st : StState)
    (fs : List (String × Json)) : TraceInv st (stOf (secondaryStatus cfg ts ch st fs)) := by
  simp only [secondaryStatus]
  repeat' split
  all_goals
    first
      | exact traceInv_refl st
      | simp [stOf, TraceInv, attemptUpdate, attemptSay, List.prefix_refl, List.prefix_append,
          List.countP_append, List.countP_cons, SlackCall.isSayError, List.append_assoc]

theorem handleJson_traceInv (cfg : SlackCfg) (ts ch : Option String) (st : StState)
    (j : Json) : TraceInv st (stOf (handleJson cfg ts ch st j)) := by
  simp only [handleJson]
  repeat' split
  all_goals
    first
      | exact traceInv_refl st
      | exact foldContentItems_traceInv _ _
      | exact secondaryStatus_traceInv _ _ _ _ _
      | simp [stOf, TraceInv, attemptUpdate, List.prefix_refl, List.prefix_append,
          List.countP_append, List.countP_cons, SlackCall.isSayError]

theorem processLine_traceInv (cfg : SlackCfg) (decode : String → Option Json)
    (ts ch : Option String) (st : StState) (line : String) :
    TraceInv st (stOfP (processLine cfg decode ts ch st line)) := by
  simp only [processLine]
  repeat' split
  all_goals
    first
      | exact traceInv_refl st
      | (rename_i j hdec hx st2 heq
         have h := handleJson_traceInv cfg ts ch
           {st with response_lines := st.response_lines ++ [line]} j
         rw [heq] at h
         exact h)

theorem runLines_traceInv (cfg : SlackCfg) (decode : String → Option Json)
    (ts ch : Option String) (lines : List String) (st : StState) :
    TraceInv st (stOf (runLines cfg decode ts ch lines st)) := by
  induction lines generalizing st with
  | nil => exact traceInv_refl st
  | cons l ls ih =>
    simp only [runLines]
    cases hP : processLine cfg decode ts ch st l with
    | error st2 =>
      have h := processLine_traceInv cfg decode ts ch st l
      rw [hP] at h
      exact h
    | ok p =>
      obtain ⟨st2, b⟩ := p
      have h := processLine_traceInv cfg decode ts ch st l
      rw [hP] at h
      cases b with
      | true => exact h
      | false => exact traceInv_trans h (ih st2)

theorem finalize_traceInv (cfg : SlackCfg) (ts ch : Option String) (st : StState) :
    TraceInv st (stOf (finalize cfg ts ch st)) := by
  simp only [finalize]
  repeat' split
  all_goals
    first
      | exact traceInv_refl st
      | simp [stOf, TraceInv, attemptUpdate, attemptSay, List.prefix_refl, List.prefix_append,
          List.countP_append, List.countP_cons, SlackCall.isSayError, List.append_assoc]

theorem handleError_trace (cfg : SlackCfg) (st : StState) (msg title : String) :
    (handleError cfg st msg title).trace
      = (if cfg.hasSay then st.trace ++ [SlackCall.sayError title msg] else st.trace) := by
  simp only [handleError, attemptSay]
  repeat' split
  all_goals simp

theorem handleError_trace_grows (cfg : SlackCfg) (st : StState) (msg title : String) :
    st.trace <+: (handleError cfg st msg title).trace := by
  rw [handleError_trace]
  split
  · exact List.prefix_append _ _
  · exact List.prefix_refl _

theorem finishTurn_trace_grows (cfg : SlackCfg) (ps : List String → Json)
    (pj : String → Json) (ex : Json → Json) (ts ch : Option String) (stL : StState) :
    stL.trace <+: (finishTurn cfg ps pj ex ts ch stL).trace := by
  unfold finishTurn
  have h2 := finalize_traceInv cfg ts ch stL
  cases hF : finalize cfg ts ch stL with
  | error stE =>
    rw [hF] at h2
    exact h2.1.trans (handleError_trace_grows cfg stE errUnexpected "Unexpected error")
  | ok stF =>
    rw [hF] at h2
    exact h2.1

theorem runStream_trace_grows (cfg : SlackCfg) (decode : String → Option Json)
    (ps : List String → Json) (pj : String → Json) (ex : Json → Json)
    (ts ch : Option String) (st : StState) (lines : List String) :
    st.trace <+: (runStream cfg decode ps pj ex ts ch st lines).trace := by
  unfold runStream
  have h := runLines_traceInv cfg decode ts ch lines st
  cases hL : runLines cfg decode ts ch lines st with
  | error stE =>
    rw [hL] at h
    exact h.1.trans (handleError_trace_grows cfg stE errUnexpected "Unexpected error")
  | ok stL =>
    rw [hL] at h
    exact h.1.trans (finishTurn_trace_grows cfg ps pj ex ts ch stL)

/-! Claim C4. -/

/-- Counterexample to claim C4: a turn whose stream contains no event at
    all (the transport succeeds with an empty body) still creates the
    Thinking notification record — the record is created before any line of
    the stream is read (source lines 67-86, directly after
    raise_for_status), so a notification record exists before any status
    event has been observed. -/
theorem C4_counterexample :
    (retrieveResponse cfgAllOk (fun _ => none) pId pJ exS (.ok [])).trace
      = [SlackCall.sayThinking] := rfl

/-- Claim C4 as amended: the notification record is created eagerly, not
    lazily — whenever a say sink is configured, the Thinking record is the
    first sink call of the turn, attempted before any stream line is
    processed, for every stream whatsoever. -/
theorem C4_amended_eager_record (cfg : SlackCfg) (decode : String → Option Json)
    (ps : List String → Json) (pj : String → Json) (ex : Json → Json)
    (lines : List String) (hSay : cfg.hasSay = true) :
    (retrieveResponse cfg decode ps pj ex (.ok lines)).trace.head?
      = some SlackCall.sayThinking := by
  have hq : (attemptSay cfg initState SlackCall.sayThinking).1.trace
      = [SlackCall.sayThinking] := rfl
  simp only [retrieveResponse, hSay, reduceIte]
  split
  · obtain ⟨d, hd⟩ := runStream_trace_grows cfg decode ps pj ex (tsInit cfg) (chInit cfg)
      (attemptSay cfg initState SlackCall.sayThinking).1 lines
    rw [← hd, hq]
    rfl
  · obtain ⟨d, hd⟩ := handleError_trace_grows cfg
      (attemptSay cfg initState SlackCall.sayThinking).1 errUnexpected "Unexpected error"
    rw [← hd, hq]
    rfl

/-- Witness for C4 amended: a one-line stream whose only line fails to
    decode; the record is still created first. -/
theorem C4_witness :
    (retrieveResponse cfgAllOk (fun _ => none) pId pJ exS (.ok ["data: nope"])).trace.head?
      = some SlackCall.sayThinking :=
  C4_amended_eager_record cfgAllOk (fun _ => none) pId pJ exS ["data: nope"] rfl

/-! Claim C1. -/

theorem strStartsWith_error (x : String) :
    strStartsWith ("Error: " ++ x) "Error:" = true := by
  have h : ("Error: " ++ x).toList
      = 'E' :: 'r' :: 'r' :: 'o' :: 'r' :: ':' :: ' ' :: x.toList := rfl
  unfold strStartsWith
  rw [h]
  simp [List.isPrefixOf]

theorem handleError_out (cfg : SlackCfg) (st : StState) (msg title : String)
    (hS : cfg.sayOk st.nSays = true) :
    handleError cfg st msg title
      = ⟨some (errSummary msg),
         if cfg.hasSay then st.trace ++ [SlackCall.sayError title msg] else st.trace⟩ := by
  simp only [handleError, attemptSay]
  repeat' split
  all_goals simp_all

/-- A say sink whose post raises (the sink is unavailable). -/
def cfgSayRaises : SlackCfg := ⟨true, false, none, none, fun _ => true, fun _ => false⟩

/-- Counterexample to claim C1 as stated: when the transport call times out
    and the configured notification sink itself raises on the error post,
    _handle_error does not catch it (its slack_say call is outside every
    try block), so the invocation raises to the caller instead of returning
    a Summary: the result is none (a propagated exception). -/
theorem C1_counterexample :
    (retrieveResponse cfgSayRaises (fun _ => none) pId pJ exS Transport.timeout).result
      = none := rfl

/-- Claim C1 as amended: for every invocation in which the transport call
    times out, fails (non-2xx or connection error), or an uncategorized
    exception escapes the stream loop, and in which the sink post calls do
    not themselves raise, the operation returns a summary object whose text
    begins with Error: and whose sql_queries and citations are empty, and
    exactly one error notification is attempted when a say sink is
    configured (none otherwise). -/
theorem C1_amended_error_summary (cfg : SlackCfg) (decode : String → Option Json)
    (ps : List String → Json) (pj : String → Json) (ex : Json → Json)
    (t : Transport) (m : String) (lines : List String) (stE : StState)
    (hS : ∀ i, cfg.sayOk i = true)
    (hfail : t = Transport.timeout ∨ t = Transport.requestError m ∨
      (t = Transport.ok lines ∧
        runLines cfg decode (tsUsed cfg) (chInit cfg) lines (stAfterSay cfg)
          = Except.error stE)) :
    ∃ s, (retrieveResponse cfg decode ps pj ex t).result
        = some (Json.obj [("text", Json.str s), ("sql_queries", Json.arr []),
            ("citations", Json.arr [])])
      ∧ strStartsWith s "Error:" = true
      ∧ (retrieveResponse cfg decode ps pj ex t).trace.countP SlackCall.isSayError
          = (if cfg.hasSay then 1 else 0) := by
  rcases hfail with rfl | rfl | ⟨rfl, hE⟩
  · simp only [retrieveResponse]
    rw [handleError_out cfg initState _ _ (hS _)]
    refine ⟨_, rfl, strStartsWith_error _, ?_⟩
    by_cases hs : cfg.hasSay = true <;>
      simp [hs, initState, List.countP_cons, SlackCall.isSayError]
  · simp only [retrieveResponse]
    rw [handleError_out cfg initState _ _ (hS _)]
    refine ⟨_, rfl, strStartsWith_error _, ?_⟩
    by_cases hs : cfg.hasSay = true <;>
      simp [hs, initState, List.countP_cons, SlackCall.isSayError]
  · by_cases hs : cfg.hasSay = true
    · simp only [retrieveResponse, hs, reduceIte]
      rw [if_pos (show (attemptSay cfg initState SlackCall.sayThinking).2 = true from hS 0)]
      have e1 : tsUsed cfg = tsInit cfg := by simp [tsUsed, hs]
      have e2 : stAfterSay cfg = (attemptSay cfg initState SlackCall.sayThinking).1 := by
        simp [stAfterSay, hs]
      rw [e1, e2] at hE
      have hInv := runLines_traceInv cfg decode (tsInit cfg) (chInit cfg) lines
        ((attemptSay cfg initState SlackCall.sayThinking).1)
      rw [hE] at hInv
      have hc : stE.trace.countP SlackCall.isSayError = 0 := by
        simpa [stOf, attemptSay, initState, List.countP_cons, SlackCall.isSayError]
          using hInv.2
      have hrw : runStream cfg decode ps pj ex (tsInit cfg) (chInit cfg)
          ((attemptSay cfg initState SlackCall.sayThinking).1) lines
          = handleError cfg stE errUnexpected "Unexpected error" := by
        unfold runStream
        rw [hE]
      rw [hrw, handleError_out cfg stE _ _ (hS _)]
      refine ⟨_, rfl, strStartsWith_error _, ?_⟩
      simp [hs, hc, List.countP_append, List.countP_cons, SlackCall.isSayError]
    · have hsf : cfg.hasSay = false := by simpa using hs
      simp only [retrieveResponse, hsf, reduceIte]
      have e1 : tsUsed cfg = none := by simp [tsUsed, hsf]
      have e2 : stAfterSay cfg = initState := by simp [stAfterSay, hsf]
      rw [e1, e2] at hE
      have hInv := runLines_traceInv cfg decode none (chInit cfg) lines initState
      rw [hE] at hInv
      have hc : stE.trace.countP SlackCall.isSayError = 0 := by
        simpa [stOf, initState] using hInv.2
      have hrw : runStream cfg decode ps pj ex none (chInit cfg) initState lines
          = handleError cfg stE errUnexpected "Unexpected error" := by
        unfold runStream
        rw [hE]
      rw [hrw, handleError_out cfg stE _ _ (hS _)]
      refine ⟨_, rfl, strStartsWith_error _, ?_⟩
      simp [hsf, hc]

/-- Witness for C1 amended at a timeout with a working sink. -/
theorem C1_witness :
    ∃ s, (retrieveResponse cfgAllOk (fun _ => none) pId pJ exS Transport.timeout).result
        = some (Json.obj [("text", Json.str s), ("sql_queries", Json.arr []),
            ("citations", Json.arr [])])
      ∧ strStartsWith s "Error:" = true
      ∧ (retrieveResponse cfgAllOk (fun _ => none) pId pJ exS
          Transport.timeout).trace.countP SlackCall.isSayError
          = (if cfgAllOk.hasSay then 1 else 0) :=
  C1_amended_error_summary cfgAllOk (fun _ => none) pId pJ exS Transport.timeout
    "x" [] initState (fun _ => rfl) (Or.inl rfl)

/-! Claim C3. -/

theorem processLine_secondary (cfg : SlackCfg) (decode : String → Option Json)
    (ts ch : Option String) (st : StState) (line m : String)
    (h0 : (line == "") = false)
    (h1 : strStartsWith line "event: " = false)
    (h2 : strStartsWith line "data: " = true)
    (h3 : (pyStrip (line.drop 6) == "[DONE]") = false)
    (h4 : strStartsWith (pyStrip (line.drop 6)) "[" = false)
    (h5 : decode (pyStrip (line.drop 6)) = some (statusObj m))
    (hev : st.current_event = none) (hm : (m != "") = true)
    (hApp : cfg.hasApp = true) (hts : optTruthy ts = true) (hch : optTruthy ch = true)
    (hU : cfg.updateOk st.nUpdates = true) :
    processLine cfg decode ts ch st line =
      (if (st.planning_updates.length + 1) % 2 == 0
       then Except.ok ({st with response_lines := st.response_lines ++ [line], planning_updates := st.planning_updates ++ [Json.str m], nUpdates := st.nUpdates + 1, trace := st.trace ++ [SlackCall.updateSecondary (st.planning_updates.length + 1) (Json.str m)]}, false)
       else Except.ok ({st with response_lines := st.response_lines ++ [line], planning_updates := st.planning_updates ++ [Json.str m]}, false)) := by
  by_cases hpar : ((st.planning_updates.length + 1) % 2 == 0) = true
  · simp [processLine, h0, h1, h2, h3, h4, h5, handleJson, statusEq, hev, statusObj,
      pyGet, lookupField, json_beq_def, Json.beq, secondaryStatus, Json.truthy, hm,
      hApp, hts, hch, hpar, hU, attemptUpdate]
  · have hpar2 : ((st.planning_updates.length + 1) % 2 == 0) = false := by
      simpa using hpar
    simp [processLine, h0, h1, h2, h3, h4, h5, handleJson, statusEq, hev, statusObj,
      pyGet, lookupField, json_beq_def, Json.beq, secondaryStatus, Json.truthy, hm,
      hApp, hts, hch, hpar2]

theorem runLines_cons_ok (cfg : SlackCfg) (decode : String → Option Json)
    (ts ch : Option String) (l : String) (ls : List String) (st st2 : StState)
    (h : processLine cfg decode ts ch st l = Except.ok (st2, false)) :
    runLines cfg decode ts ch (l :: ls) st = runLines cfg decode ts ch ls st2 := by
  simp only [runLines]
  rw [h]

/-- Predicate for secondary-channel refresh calls. -/
def SlackCall.isSecondaryUpdate : SlackCall → Bool
  | .updateSecondary _ _ => true
  | _ => false

/-- Predicate for the finalization update. -/
def SlackCall.isFinalUpdate : SlackCall → Bool
  | .updateFinal _ => true
  | _ => false

/-- The five raw lines of a turn consisting only of secondary-channel
    status updates. -/
def statusLines : List String :=
  ["data: s1", "data: s2", "data: s3", "data: s4", "data: s5"]

/-- The decoder for those five lines, carrying the five status messages. -/
def statusDecode (m1 m2 m3 m4 m5 : String) : String → Option Json :=
  decodeTable [("s1", statusObj m1), ("s2", statusObj m2), ("s3", statusObj m3),
               ("s4", statusObj m4), ("s5", statusObj m5)]

/-- Claim C3: in a turn in which exactly 5 secondary-channel status updates
    arrive (with arbitrary non-empty messages) and no other planning steps
    are produced, with sinks configured and all sink calls succeeding, the
    notifier issues exactly 2 refresh calls to the existing record — at the
    2nd and 4th updates, the even step counts (source line 251) — plus
    exactly one finalization update at stream end (source lines 337-394). -/
theorem C3_five_secondary_updates (cfg : SlackCfg)
    (ps : List String → Json) (pj : String → Json) (ex : Json → Json)
    (m1 m2 m3 m4 m5 ts ch : String)
    (hSay : cfg.hasSay = true) (hApp : cfg.hasApp = true)
    (hCh : cfg.channelId = some ch) (hchne : (ch != "") = true)
    (hTs : cfg.sayTs = some ts) (htsne : (ts != "") = true)
    (hU : ∀ i, cfg.updateOk i = true) (hS : ∀ i, cfg.sayOk i = true)
    (hm1 : (m1 != "") = true) (hm2 : (m2 != "") = true) (hm3 : (m3 != "") = true)
    (hm4 : (m4 != "") = true) (hm5 : (m5 != "") = true) :
    (retrieveResponse cfg (statusDecode m1 m2 m3 m4 m5) ps pj ex
        (.ok statusLines)).trace
      = [SlackCall.sayThinking, SlackCall.updateSecondary 2 (Json.str m2),
         SlackCall.updateSecondary 4 (Json.str m4), SlackCall.updateFinal 5]
    ∧ (retrieveResponse cfg (statusDecode m1 m2 m3 m4 m5) ps pj ex
        (.ok statusLines)).trace.countP SlackCall.isSecondaryUpdate = 2
    ∧ (retrieveResponse cfg (statusDecode m1 m2 m3 m4 m5) ps pj ex
        (.ok statusLines)).trace.countP SlackCall.isFinalUpdate = 1 := by
  have htsv : tsInit cfg = some ts := by simp [tsInit, optTruthy, hTs, htsne]
  have hchv : chInit cfg = some ch := by simp [chInit, hApp, hCh]
  have hts2 : optTruthy (tsInit cfg) = true := by rw [htsv]; exact htsne
  have hch2 : optTruthy (chInit cfg) = true := by rw [hchv]; exact hchne
  have L1 : processLine cfg (statusDecode m1 m2 m3 m4 m5) (tsInit cfg) (chInit cfg)
      ⟨[], [], "", [], none, 0, 1, [SlackCall.sayThinking]⟩ "data: s1"
      = Except.ok (⟨["data: s1"], [], "", [Json.str m1], none, 0, 1,
          [SlackCall.sayThinking]⟩, false) := by
    rw [processLine_secondary cfg (statusDecode m1 m2 m3 m4 m5) (tsInit cfg) (chInit cfg)
      _ "data: s1" m1 rfl rfl rfl rfl rfl rfl rfl hm1 hApp hts2 hch2 (hU 0)]
    simp
  have L2 : processLine cfg (statusDecode m1 m2 m3 m4 m5) (tsInit cfg) (chInit cfg)
      ⟨["data: s1"], [], "", [Json.str m1], none, 0, 1, [SlackCall.sayThinking]⟩ "data: s2"
      = Except.ok (⟨["data: s1", "data: s2"], [], "", [Json.str m1, Json.str m2], none, 1, 1,
          [SlackCall.sayThinking, SlackCall.updateSecondary 2 (Json.str m2)]⟩, false) := by
    rw [processLine_secondary cfg (statusDecode m1 m2 m3 m4 m5) (tsInit cfg) (chInit cfg)
      _ "data: s2" m2 rfl rfl rfl rfl rfl rfl rfl hm2 hApp hts2 hch2 (hU 0)]
    simp
  have L3 : processLine cfg (statusDecode m1 m2 m3 m4 m5) (tsInit cfg) (chInit cfg)
      ⟨["data: s1", "data: s2"], [], "", [Json.str m1, Json.str m2], none, 1, 1,
        [SlackCall.sayThinking, SlackCall.updateSecondary 2 (Json.str m2)]⟩ "data: s3"
      = Except.ok (⟨["data: s1", "data: s2", "data: s3"], [], "",
          [Json.str m1, Json.str m2, Json.str m3], none, 1, 1,
          [SlackCall.sayThinking, SlackCall.updateSecondary 2 (Json.str m2)]⟩, false) := by
    rw [processLine_secondary cfg (statusDecode m1 m2 m3 m4 m5) (tsInit cfg) (chInit cfg)
      _ "data: s3" m3 rfl rfl rfl rfl rfl rfl rfl hm3 hApp hts2 hch2 (hU 1)]
    simp
  have L4 : processLine cfg (statusDecode m1 m2 m3 m4 m5) (tsInit cfg) (chInit cfg)
      ⟨["data: s1", "data: s2", "data: s3"], [], "",
        [Json.str m1, Json.str m2, Json.str m3], none, 1, 1,
        [SlackCall.sayThinking, SlackCall.updateSecondary 2 (Json.str m2)]⟩ "data: s4"
      = Except.ok (⟨["data: s1", "data: s2", "data: s3", "data: s4"], [], "",
          [Json.str m1, Json.str m2, Json.str m3, Json.str m4], none, 2, 1,
          [SlackCall.sayThinking, SlackCall.updateSecondary 2 (Json.str m2),
           SlackCall.updateSecondary 4 (Json.str m4)]⟩, false) := by
    rw [processLine_secondary cfg (statusDecode m1 m2 m3 m4 m5) (tsInit cfg) (chInit cfg)
      _ "data: s4" m4 rfl rfl rfl rfl rfl rfl rfl hm4 hApp hts2 hch2 (hU 1)]
    simp
  have L5 : processLine cfg (statusDecode m1 m2 m3 m4 m5) (tsInit cfg) (chInit cfg)
      ⟨["data: s1", "data: s2", "data: s3", "data: s4"], [], "",
        [Json.str m1, Json.str m2, Json.str m3, Json.str m4], none, 2, 1,
        [SlackCall.sayThinking, SlackCall.updateSecondary 2 (Json.str m2),
         SlackCall.updateSecondary 4 (Json.str m4)]⟩ "data: s5"
      = Except.ok (⟨["data: s1", "data: s2", "data: s3", "data: s4", "data: s5"], [], "",
          [Json.str m1, Json.str m2, Json.str m3, Json.str m4, Json.str m5], none, 2, 1,
          [SlackCall.sayThinking, SlackCall.updateSecondary 2 (Json.str m2),
           SlackCall.updateSecondary 4 (Json.str m4)]⟩, false) := by
    rw [processLine_secondary cfg (statusDecode m1 m2 m3 m4 m5) (tsInit cfg) (chInit cfg)
      _ "data: s5" m5 rfl rfl rfl rfl rfl rfl rfl hm5 hApp hts2 hch2 (hU 2)]
    simp
  have RL : runLines cfg (statusDecode m1 m2 m3 m4 m5) (tsInit cfg) (chInit cfg)
      statusLines ⟨[], [], "", [], none, 0, 1, [SlackCall.sayThinking]⟩
      = Except.ok ⟨["data: s1", "data: s2", "data: s3", "data: s4", "data: s5"], [], "",
          [Json.str m1, Json.str m2, Json.str m3, Json.str m4, Json.str m5], none, 2, 1,
          [SlackCall.sayThinking, SlackCall.updateSecondary 2 (Json.str m2),
           SlackCall.updateSecondary 4 (Json.str m4)]⟩ := by
    rw [show statusLines
      = "data: s1" :: "data: s2" :: "data: s3" :: "data: s4" :: "data: s5" :: [] from rfl]
    rw [runLines_cons_ok _ _ _ _ _ _ _ _ L1, runLines_cons_ok _ _ _ _ _ _ _ _ L2,
      runLines_cons_ok _ _ _ _ _ _ _ _ L3, runLines_cons_ok _ _ _ _ _ _ _ _ L4,
      runLines_cons_ok _ _ _ _ _ _ _ _ L5]
    rfl
  have F : finalize cfg (tsInit cfg) (chInit cfg)
      ⟨["data: s1", "data: s2", "data: s3", "data: s4", "data: s5"], [], "",
        [Json.str m1, Json.str m2, Json.str m3, Json.str m4, Json.str m5], none, 2, 1,
        [SlackCall.sayThinking, SlackCall.updateSecondary 2 (Json.str m2),
         SlackCall.updateSecondary 4 (Json.str m4)]⟩
      = Except.ok ⟨["data: s1", "data: s2", "data: s3", "data: s4", "data: s5"], [], "",
          [Json.str m1, Json.str m2, Json.str m3, Json.str m4, Json.str m5], none, 3, 1,
          [SlackCall.sayThinking, SlackCall.updateSecondary 2 (Json.str m2),
           SlackCall.updateSecondary 4 (Json.str m4), SlackCall.updateFinal 5]⟩ := by
    simp [finalize, hApp, hts2, hch2, hU 2, attemptUpdate]
  have hrw : retrieveResponse cfg (statusDecode m1 m2 m3 m4 m5) ps pj ex (.ok statusLines)
      = finishTurn cfg ps pj ex (tsInit cfg) (chInit cfg)
          ⟨["data: s1", "data: s2", "data: s3", "data: s4", "data: s5"], [], "",
            [Json.str m1, Json.str m2, Json.str m3, Json.str m4, Json.str m5], none, 2, 1,
            [SlackCall.sayThinking, SlackCall.updateSecondary 2 (Json.str m2),
             SlackCall.updateSecondary 4 (Json.str m4)]⟩ := by
    simp only [retrieveResponse, hSay, reduceIte]
    rw [if_pos (show (attemptSay cfg initState SlackCall.sayThinking).2 = true from hS 0)]
    unfold runStream
    rw [show (attemptSay cfg initState SlackCall.sayThinking).1
      = ⟨[], [], "", [], none, 0, 1, [SlackCall.sayThinking]⟩ from rfl]
    rw [RL]
  have hfin : finishTurn cfg ps pj ex (tsInit cfg) (chInit cfg)
      ⟨["data: s1", "data: s2", "data: s3", "data: s4", "data: s5"], [], "",
        [Json.str m1, Json.str m2, Json.str m3, Json.str m4, Json.str m5], none, 2, 1,
        [SlackCall.sayThinking, SlackCall.updateSecondary 2 (Json.str m2),
         SlackCall.updateSecondary 4 (Json.str m4)]⟩
      = ⟨some (ex (dispatchParse ps pj
            ["data: s1", "data: s2", "data: s3", "data: s4", "data: s5"])),
         [SlackCall.sayThinking, SlackCall.updateSecondary 2 (Json.str m2),
          SlackCall.updateSecondary 4 (Json.str m4), SlackCall.updateFinal 5]⟩ := by
    unfold finishTurn
    rw [F]
  rw [hrw, hfin]
  refine ⟨rfl, ?_, ?_⟩ <;>
    simp [List.countP_cons, SlackCall.isSecondaryUpdate, SlackCall.isFinalUpdate]

/-- Witness for C3 at five concrete messages with a fully configured,
    always-succeeding sink. -/
theorem C3_witness :
    (retrieveResponse cfgAllOk (statusDecode "a1" "a2" "a3" "a4" "a5") pId pJ exS
        (.ok statusLines)).trace
      = [SlackCall.sayThinking, SlackCall.updateSecondary 2 (Json.str "a2"),
         SlackCall.updateSecondary 4 (Json.str "a4"), SlackCall.updateFinal 5]
    ∧ (retrieveResponse cfgAllOk (statusDecode "a1" "a2" "a3" "a4" "a5") pId pJ exS
        (.ok statusLines)).trace.countP SlackCall.isSecondaryUpdate = 2
    ∧ (retrieveResponse cfgAllOk (statusDecode "a1" "a2" "a3" "a4" "a5") pId pJ exS
        (.ok statusLines)).trace.countP SlackCall.isFinalUpdate = 1 :=
  C3_five_secondary_updates cfgAllOk pId pJ exS "a1" "a2" "a3" "a4" "a5" "111.22" "chan"
    rfl rfl rfl rfl rfl rfl (fun _ => rfl) (fun _ => rfl) rfl rfl rfl rfl rfl
